import Mathlib

/-!
Verification of the Salter MiBody scale data processor (`mibody/processor.py`).

The decoder reads a byte stream in fixed 18-byte blocks, decodes each block
whose first byte is non-zero into a `BodyDataRow`, and raises a
"no weigh-ins" error when zero records result.  Records expose derived
metrics (BMR, BMI, weight classification) recomputed from current fields.

Modelling conventions:
- byte streams are `List Nat`; Python `bytes` elements are 0-255, so theorems
  that depend on byte-ness carry explicit `< 256` hypotheses;
- Python float arithmetic is modelled exactly over `ℚ`; the built-in `round`
  is round-half-to-even (`rhe` below);
- `datetime.datetime(...)` construction is modelled by `dateTimeValid`
  (CPython's range checks); an out-of-range component raises, which the
  decode loop does not catch, so the loop returns `Except` with a dedicated
  `invalidDate` error distinct from the four errors the code itself raises;
- exceptions raised by `BodyData.__init__` / `BodyData._process` are the
  constructors of `DecodeError`.
-/

namespace MiBody

/-- Python built-in `round(x)`: round to nearest integer, ties to even. -/
def rhe (q : ℚ) : ℤ :=
  let f := ⌊q⌋
  let frac := q - (f : ℚ)
  if frac < 1/2 then f
  else if 1/2 < frac then f + 1
  else if f % 2 = 0 then f else f + 1

/-- Python `round(x, 2)`: round to 2 decimal places, ties to even. -/
def round2 (q : ℚ) : ℚ :=
  ((rhe (q * 100) : ℚ)) / 100

/-- The `datetime.datetime` value stored in a record, as the six components
computed in `BodyData._process` (`processor.py` lines 286-295). -/
structure DateTime where
  year : Nat
  month : Nat
  day : Nat
  hour : Nat
  minute : Nat
  second : Nat
deriving DecidableEq

/-- Number of days in a month, as validated by CPython's `datetime` module
(Gregorian leap years). -/
def daysInMonth (year month : Nat) : Nat :=
  if month = 2 then
    if year % 4 = 0 ∧ (year % 100 ≠ 0 ∨ year % 400 = 0) then 29 else 28
  else if month = 4 ∨ month = 6 ∨ month = 9 ∨ month = 11 then 30
  else 31

/-- The argument ranges accepted by `datetime.datetime(year, month, day, hour,
minute, second)`: `MINYEAR = 1 ≤ year ≤ MAXYEAR = 9999`, `1 ≤ month ≤ 12`,
`1 ≤ day ≤` days in that month, `hour ≤ 23`, `minute ≤ 59`, `second ≤ 59`.
Out-of-range components make the constructor raise. -/
def dateTimeValid (dt : DateTime) : Prop :=
  1 ≤ dt.year ∧ dt.year ≤ 9999 ∧ 1 ≤ dt.month ∧ dt.month ≤ 12 ∧
  1 ≤ dt.day ∧ dt.day ≤ daysInMonth dt.year dt.month ∧
  dt.hour ≤ 23 ∧ dt.minute ≤ 59 ∧ dt.second ≤ 59

instance (dt : DateTime) : Decidable (dateTimeValid dt) := by
  unfold dateTimeValid; infer_instance

/-- One decoded weigh-in record: the dict keys stored by `BodyData._process`
(`processor.py` lines 326-336).  `weight`, `body_fat` and `muscle_mass` are
the Python floats `((hi<<8)+lo)/10`, modelled exactly in `ℚ`.  The dict is
mutable after construction; item assignment is modelled by the functional
updates `setWeight` / `setGender` below. -/
structure BodyDataRow where
  date_time : DateTime
  gender : String
  age : Nat
  height : Nat
  fitness_level : Nat
  weight : ℚ
  body_fat : ℚ
  muscle_mass : ℚ
  visceral_fat : Nat
deriving DecidableEq

namespace BodyDataRow

/-- `BodyDataRow.weight_kg`: alias for the `weight` field. -/
def weight_kg (r : BodyDataRow) : ℚ := r.weight

/-- `BodyDataRow.height_cm`: alias for the `height` field. -/
def height_cm (r : BodyDataRow) : Nat := r.height

/-- `BodyDataRow.height_m`: `self.height_cm / 100` (Python true division). -/
def height_m (r : BodyDataRow) : ℚ := (r.height_cm : ℚ) / 100

/-- `BodyDataRow.bmr` (`processor.py` lines 149-168): Mifflin-St Jeor basal
metabolic rate `10*weight_kg + 6.25*height_cm - 5*age`, then `+= 5` when
gender is `'M'`, `-= 161` when `'F'`, otherwise the accumulator is
overwritten with `0`; finally Python `round`. -/
def bmr (r : BodyDataRow) : ℤ :=
  let unmodified_bmr : ℚ :=
    10 * r.weight_kg + 6.25 * (r.height_cm : ℚ) - 5 * (r.age : ℚ)
  let unmodified_bmr : ℚ :=
    if r.gender = "M" then unmodified_bmr + 5
    else if r.gender = "F" then unmodified_bmr - 161
    else 0
  rhe unmodified_bmr

/-- `BodyDataRow.bmi` (`processor.py` lines 170-177):
`round(self.weight_kg / self.height_m**2, 2)`. -/
def bmi (r : BodyDataRow) : ℚ :=
  round2 (r.weight_kg / r.height_m ^ 2)

end BodyDataRow

/-- The BMI banding inside `BodyDataRow.classification`
(`processor.py` lines 188-203), including the unreachable trailing
`return ''` branch. -/
def classifyBmi (bmi : ℚ) : String :=
  if bmi < 18.5 then "underweight"
  else if 18.5 ≤ bmi ∧ bmi < 25 then "healthy weight"
  else if 25 ≤ bmi ∧ bmi < 30 then "overweight"
  else if 30 ≤ bmi ∧ bmi < 35 then "class I obesity"
  else if 35 ≤ bmi ∧ bmi < 40 then "class II obesity"
  else if bmi ≥ 40 then "class III obesity"
  else ""

/-- `BodyDataRow.classification` (`processor.py` lines 179-203): reads
`bmi = self.bmi` and bands it. -/
def BodyDataRow.classification (r : BodyDataRow) : String :=
  classifyBmi r.bmi

/-- Dict item assignment `row['weight'] = w` (as done by the tests after
construction); derived properties are plain functions of the fields, so they
see the new value on the next access. -/
def setWeight (r : BodyDataRow) (w : ℚ) : BodyDataRow := { r with weight := w }

/-- Dict item assignment `row['gender'] = g`. -/
def setGender (r : BodyDataRow) (g : String) : BodyDataRow := { r with gender := g }

/-- The failures observable from `BodyData.__init__` / `BodyData._process`:
the four errors the code raises itself (`processor.py` lines 248, 258, 276,
339), plus the exception escaping from `datetime.datetime(...)` when a date
component is out of range (line 294, not caught anywhere in the decoder). -/
inductive DecodeError where
  | invalidInput : DecodeError
  | fileNotFound : String → DecodeError
  | binaryModeRequired : DecodeError
  | emptyDataset : String → DecodeError
  | invalidDate : DateTime → DecodeError
deriving DecidableEq

/-- Single-quote character, built by code point to keep source lexing plain. -/
def pyQuote : String := String.singleton (Char.ofNat 39)

/-- The message formats of the errors raised by the decoder itself
(`processor.py` lines 248-250, 258-259, 276-278, 339-340).  The message of
the exception escaping from `datetime` is produced inside CPython and is not
modelled (no theorem relies on it). -/
def DecodeError.message : DecodeError → String
  | .invalidInput =>
      pyQuote ++ "file_path_or_object" ++ pyQuote ++
        " must be valid file path or file object"
  | .fileNotFound p => (("File, " ++ pyQuote) ++ p) ++ (pyQuote ++ " not found")
  | .binaryModeRequired =>
      "Read failed, please ensure the file object is opened as binary"
  | .emptyDataset i =>
      (("File, " ++ pyQuote) ++ i) ++ (pyQuote ++ " has yielded no weigh-ins")
  | .invalidDate _ => ""

/-- Marks the errors belonging to the documented four-kind taxonomy
(InvalidInput / FileNotFound / BinaryModeRequired / EmptyDataset); the
date-range exception escaping from `datetime` is none of them. -/
def isSpecifiedErrorKind : DecodeError → Bool
  | .invalidDate _ => false
  | _ => true

/-- Decoding of one 18-byte block with non-zero first byte
(`processor.py` lines 282-336).  Byte indices follow the code exactly:
`block[0]` is both the guard byte and the high byte of the year
("First part of year, seems to be 7 each time"), so the date occupies
indices 0-6, gender/age index 7, height 8, fitness level 9, weight 10-11,
body fat 12-13, muscle mass 15-16 (index 14 skipped), visceral fat 17.
`block[7] & ~128` on a byte value 0-255 clears bit 7, i.e. equals
`block[7] & 127`. -/
def decodeBlock (b : List Nat) : BodyDataRow :=
  { date_time := ⟨(b.getD 0 0 <<< 8) + b.getD 1 0, b.getD 2 0, b.getD 3 0,
      b.getD 4 0, b.getD 5 0, b.getD 6 0⟩,
    gender := if b.getD 7 0 &&& 128 = 0 then "F" else "M",
    age := b.getD 7 0 &&& 127,
    height := b.getD 8 0,
    fitness_level := b.getD 9 0,
    weight := (((b.getD 10 0 <<< 8) + b.getD 11 0 : ℕ) : ℚ) / 10,
    body_fat := (((b.getD 12 0 <<< 8) + b.getD 13 0 : ℕ) : ℚ) / 10,
    muscle_mass := (((b.getD 15 0 <<< 8) + b.getD 16 0 : ℕ) : ℚ) / 10,
    visceral_fat := b.getD 17 0 }

/-- Decoding of one block following the byte offsets claimed by the spec's
layout table instead of the code (claim C1): guard at offset 0 only, year
from offsets 1-2, month 3, day 4, hour 5, minute 6, second 7, gender/age 8,
height 9, fitness level 10, weight 11-12, body fat 13-14, muscle mass 16-17,
visceral fat from the last byte.  Stated solely for comparison with
`decodeBlock`. -/
def specTableDecode (b : List Nat) : BodyDataRow :=
  { date_time := ⟨(b.getD 1 0 <<< 8) + b.getD 2 0, b.getD 3 0, b.getD 4 0,
      b.getD 5 0, b.getD 6 0, b.getD 7 0⟩,
    gender := if b.getD 8 0 &&& 128 = 0 then "F" else "M",
    age := b.getD 8 0 &&& 127,
    height := b.getD 9 0,
    fitness_level := b.getD 10 0,
    weight := (((b.getD 11 0 <<< 8) + b.getD 12 0 : ℕ) : ℚ) / 10,
    body_fat := (((b.getD 13 0 <<< 8) + b.getD 14 0 : ℕ) : ℚ) / 10,
    muscle_mass := (((b.getD 16 0 <<< 8) + b.getD 17 0 : ℕ) : ℚ) / 10,
    visceral_fat := b.getD 17 0 }

/-- The consecutive full 18-byte blocks of a stream; a trailing short read
(fewer than 18 bytes, possibly zero) is not a block. -/
def fullChunks (s : List Nat) : List (List Nat) :=
  if _h : s.length < 18 then []
  else s.take 18 :: fullChunks (s.drop 18)
termination_by s.length
decreasing_by simp; omega

/-- The `while True` read loop of `BodyData._process`
(`processor.py` lines 272-336): read 18 bytes; a short read breaks the loop;
a block with zero first byte is skipped; otherwise the block is decoded and
appended — except that an out-of-range date makes `datetime.datetime` raise,
which aborts the whole decode (`.error (.invalidDate ...)`). -/
def processAux (s : List Nat) : Except DecodeError (List BodyDataRow) :=
  if _h : s.length < 18 then .ok []
  else
    let block := s.take 18
    if block.getD 0 0 ≠ 0 then
      let row := decodeBlock block
      if dateTimeValid row.date_time then
        match processAux (s.drop 18) with
        | .error e => .error e
        | .ok rows => .ok (row :: rows)
      else .error (.invalidDate row.date_time)
    else processAux (s.drop 18)
termination_by s.length
decreasing_by simp; omega

/-- `BodyData._process` (`processor.py` lines 264-340): the read loop
followed by the `if not len(self)` check raising the "has yielded no
weigh-ins" error; `ident` is the `file_path_or_object` formatted into the
message. -/
def process (ident : String) (s : List Nat) : Except DecodeError (List BodyDataRow) :=
  match processAux s with
  | .error e => .error e
  | .ok rows => if rows.length = 0 then .error (.emptyDataset ident) else .ok rows

/-- Observable outcome of `BodyData.__init__`: the decode result and whether
`self.file_object.close()` was executed. -/
structure InitOutcome where
  result : Except DecodeError (List BodyDataRow)
  streamClosed : Bool

/-- `BodyData.__init__` (`processor.py` lines 225-262) after the stream is
available: it runs `self._process()` and then `self.file_object.close()` with
no `try`/`finally`, so `close()` runs exactly when `_process` returns
normally; an exception propagates before the close.  The code never consults
whether the stream was caller-supplied (`suppliedFileObject`) or opened from
a path — the close call is unconditional on the success path either way. -/
def bodyDataInit (suppliedFileObject : Bool) (ident : String) (s : List Nat) :
    InitOutcome :=
  match process ident s with
  | .ok rows => ⟨.ok rows, true⟩
  | .error e => ⟨.error e, false⟩

/-- Discriminator: did a decode step succeed (no exception raised)? -/
def isOkResult : Except DecodeError (List BodyDataRow) → Bool
  | .ok _ => true
  | .error _ => false

/-- Re-encoding of a decoded date-time back into bytes, as named by the
round-trip property: year high byte, year low byte, then month, day, hour,
minute, second. -/
def encodeDateTime (dt : DateTime) : List Nat :=
  [dt.year / 256, dt.year % 256, dt.month, dt.day, dt.hour, dt.minute, dt.second]

/-- An 18-byte block of all zeroes: skipped by the decoder. -/
def zeroBlock : List Nat := [0, 0, 0, 0, 0, 0, 0, 0, 0, 0, 0, 0, 0, 0, 0, 0, 0, 0]

/-- A decodable 18-byte block: guard byte 7, date 2022-01-02 03:04:05,
gender bit set with age 21, height 175, weight 66.9. -/
def goodBlock : List Nat :=
  [7, 230, 1, 2, 3, 4, 5, 149, 175, 3, 2, 157, 0, 100, 0, 0, 50, 9]

theorem processAux_short (s : List Nat) (h : s.length < 18) :
    processAux s = .ok [] := by
  rw [processAux]; exact dif_pos h

theorem processAux_skip (s : List Nat) (h : ¬ s.length < 18)
    (hg : (s.take 18).getD 0 0 = 0) : processAux s = processAux (s.drop 18) := by
  rw [processAux, dif_neg h, if_neg (not_not_intro hg)]

theorem processAux_badDate (s : List Nat) (h : ¬ s.length < 18)
    (hg : (s.take 18).getD 0 0 ≠ 0)
    (hv : ¬ dateTimeValid (decodeBlock (s.take 18)).date_time) :
    processAux s = .error (.invalidDate (decodeBlock (s.take 18)).date_time) := by
  rw [processAux, dif_neg h, if_pos hg, if_neg hv]

theorem processAux_cons (s : List Nat) (h : ¬ s.length < 18)
    (hg : (s.take 18).getD 0 0 ≠ 0)
    (hv : dateTimeValid (decodeBlock (s.take 18)).date_time) :
    processAux s =
      Except.map (fun rows => decodeBlock (s.take 18) :: rows)
        (processAux (s.drop 18)) := by
  rw [processAux, dif_neg h, if_pos hg, if_pos hv]
  cases processAux (s.drop 18) <;> rfl

theorem rhe_zero : rhe 0 = 0 := by norm_num [rhe]

theorem bmr_eq (r : BodyDataRow) : r.bmr =
    if r.gender = "M" then
      rhe (10 * r.weight_kg + 6.25 * (r.height_cm : ℚ) - 5 * (r.age : ℚ) + 5)
    else if r.gender = "F" then
      rhe (10 * r.weight_kg + 6.25 * (r.height_cm : ℚ) - 5 * (r.age : ℚ) - 161)
    else 0 := by
  unfold BodyDataRow.bmr
  by_cases hm : r.gender = "M"
  · simp [hm]
  · by_cases hf : r.gender = "F"
    · simp [hm, hf]
    · simp only [hm, hf, if_false]
      exact rhe_zero

theorem classifyBmi_halfOpen (q : ℚ) :
    classifyBmi q =
      if q < 18.5 then "underweight"
      else if q < 25 then "healthy weight"
      else if q < 30 then "overweight"
      else if q < 35 then "class I obesity"
      else if q < 40 then "class II obesity"
      else "class III obesity" := by
  unfold classifyBmi
  by_cases h1 : q < 18.5
  · simp [h1]
  · by_cases h2 : q < 25
    · simp [h1, h2, le_of_not_lt h1]
    · by_cases h3 : q < 30
      · simp [h1, h2, h3, le_of_not_lt h2]
      · by_cases h4 : q < 35
        · simp [h1, h2, h3, h4, le_of_not_lt h3]
        · by_cases h5 : q < 40
          · simp [h1, h2, h3, h4, h5, le_of_not_lt h4]
          · simp [h1, h2, h3, h4, h5, le_of_not_lt h5]

/-- C2: for every record, the `bmr` accessor returns
`10*weight_kg + 6.25*height_cm - 5*age`, plus 5 when gender is Male (`"M"`),
minus 161 when gender is Female (`"F"`), and 0 — the whole expression, not
just the adjustment — for any other gender value, the result rounded to the
nearest integer with round-half-to-even. -/
theorem c2_bmr : ∀ r : BodyDataRow, r.bmr =
    if r.gender = "M" then
      rhe (10 * r.weight_kg + 6.25 * (r.height_cm : ℚ) - 5 * (r.age : ℚ) + 5)
    else if r.gender = "F" then
      rhe (10 * r.weight_kg + 6.25 * (r.height_cm : ℚ) - 5 * (r.age : ℚ) - 161)
    else 0 := by
  intro r
  exact bmr_eq r

/-- C3: for every record, the `bmi` accessor returns `weight_kg` divided by
the square of `height_cm / 100`, rounded to 2 decimal places with
round-half-to-even. -/
theorem c3_bmi : ∀ r : BodyDataRow,
    r.bmi = round2 (r.weight_kg / ((r.height_cm : ℚ) / 100) ^ 2) := by
  intro r
  rfl

/-- C4: for every record, `classification` partitions BMI into half-open
intervals — below 18.5 "underweight", [18.5, 25) "healthy weight",
[25, 30) "overweight", [30, 35) "class I obesity", [35, 40)
"class II obesity", 40 or above "class III obesity" — and a BMI exactly
equal to 18.5, 25, 30, 35 or 40 falls into the upper bracket. -/
theorem c4_classification :
    (∀ r : BodyDataRow, r.classification =
      if r.bmi < 18.5 then "underweight"
      else if r.bmi < 25 then "healthy weight"
      else if r.bmi < 30 then "overweight"
      else if r.bmi < 35 then "class I obesity"
      else if r.bmi < 40 then "class II obesity"
      else "class III obesity") ∧
    classifyBmi 18.5 = "healthy weight" ∧
    classifyBmi 25 = "overweight" ∧
    classifyBmi 30 = "class I obesity" ∧
    classifyBmi 35 = "class II obesity" ∧
    classifyBmi 40 = "class III obesity" := by
  refine ⟨fun r => classifyBmi_halfOpen r.bmi, ?_, ?_, ?_, ?_, ?_⟩ <;>
    norm_num [classifyBmi]

/-- C9: base fields are mutable after construction and every derived
accessor is recomputed from the current field values, never cached: after
setting `weight` to `w` the next `bmi` read is
`round(w / (height_cm/100)^2, 2)` and `classification` bands that new BMI;
after setting `gender` the next `bmr` read applies the gender policy to the
new value. -/
theorem c9_mutation : ∀ (r : BodyDataRow) (w : ℚ) (g : String),
    (setWeight r w).bmi = round2 (w / ((r.height_cm : ℚ) / 100) ^ 2) ∧
    (setWeight r w).classification =
      classifyBmi (round2 (w / ((r.height_cm : ℚ) / 100) ^ 2)) ∧
    (setGender r g).bmr =
      (if g = "M" then
        rhe (10 * r.weight_kg + 6.25 * (r.height_cm : ℚ) - 5 * (r.age : ℚ) + 5)
      else if g = "F" then
        rhe (10 * r.weight_kg + 6.25 * (r.height_cm : ℚ) - 5 * (r.age : ℚ) - 161)
      else 0) := by
  intro r w g
  refine ⟨rfl, rfl, ?_⟩
  have h := bmr_eq (setGender r g)
  simpa [setGender, BodyDataRow.weight_kg, BodyDataRow.height_cm] using h

theorem decodeBlock_explicit
    (b0 b1 b2 b3 b4 b5 b6 b7 b8 b9 b10 b11 b12 b13 b14 b15 b16 b17 : Nat) :
    decodeBlock [b0, b1, b2, b3, b4, b5, b6, b7, b8, b9,
      b10, b11, b12, b13, b14, b15, b16, b17] =
    { date_time := ⟨(b0 <<< 8) + b1, b2, b3, b4, b5, b6⟩,
      gender := if b7 &&& 128 = 0 then "F" else "M",
      age := b7 &&& 127,
      height := b8,
      fitness_level := b9,
      weight := (((b10 <<< 8) + b11 : ℕ) : ℚ) / 10,
      body_fat := (((b12 <<< 8) + b13 : ℕ) : ℚ) / 10,
      muscle_mass := (((b15 <<< 8) + b16 : ℕ) : ℚ) / 10,
      visceral_fat := b17 } := by
  simp [decodeBlock, List.getD_cons_zero, List.getD_cons_succ]

/-- C1 fails on the code: the layout table's offsets are shifted by one.
At a concrete decodable block, the decoded month is the byte at offset 2,
not offset 3, the year is built from the bytes at offsets 0-1 (the guard
byte doubles as the year's high byte), not offsets 1-2, and the decoded
date-time disagrees with a decoder that follows the claimed table. -/
theorem c1_layout_counterexample :
    (decodeBlock goodBlock).date_time.month = List.getD goodBlock 2 0 ∧
    (decodeBlock goodBlock).date_time.month ≠ List.getD goodBlock 3 0 ∧
    (decodeBlock goodBlock).date_time.year =
      ((List.getD goodBlock 0 0) <<< 8) + List.getD goodBlock 1 0 ∧
    (decodeBlock goodBlock).date_time.year ≠
      ((List.getD goodBlock 1 0) <<< 8) + List.getD goodBlock 2 0 ∧
    (decodeBlock goodBlock).date_time ≠ (specTableDecode goodBlock).date_time := by
  refine ⟨by decide, by decide, by decide, by decide, by decide⟩

/-- C1 amended: for every 18-byte block with a non-zero first byte and
in-range date, the decode loop yields exactly the record whose fields come
from the code's byte offsets — year from bytes 0-1 (`(b0<<8)+b1`, the guard
byte doubling as year high byte), month 2, day 3, hour 4, minute 5,
second 6, gender bit 7 and 7-bit age from byte 7, height 8, fitness level 9,
weight ×10 from bytes 10-11, body fat ×10 from 12-13, muscle mass ×10 from
15-16 (byte 14 skipped), visceral fat from the last byte (17). -/
theorem c1_layout
    (b0 b1 b2 b3 b4 b5 b6 b7 b8 b9 b10 b11 b12 b13 b14 b15 b16 b17 : Nat)
    (hg : b0 ≠ 0)
    (hv : dateTimeValid ⟨(b0 <<< 8) + b1, b2, b3, b4, b5, b6⟩) :
    processAux [b0, b1, b2, b3, b4, b5, b6, b7, b8, b9,
      b10, b11, b12, b13, b14, b15, b16, b17] =
    .ok [{ date_time := ⟨(b0 <<< 8) + b1, b2, b3, b4, b5, b6⟩,
           gender := if b7 &&& 128 = 0 then "F" else "M",
           age := b7 &&& 127,
           height := b8,
           fitness_level := b9,
           weight := (((b10 <<< 8) + b11 : ℕ) : ℚ) / 10,
           body_fat := (((b12 <<< 8) + b13 : ℕ) : ℚ) / 10,
           muscle_mass := (((b15 <<< 8) + b16 : ℕ) : ℚ) / 10,
           visceral_fat := b17 }] := by
  have htake : List.take 18 [b0, b1, b2, b3, b4, b5, b6, b7, b8, b9,
      b10, b11, b12, b13, b14, b15, b16, b17] =
      [b0, b1, b2, b3, b4, b5, b6, b7, b8, b9,
        b10, b11, b12, b13, b14, b15, b16, b17] :=
    List.take_of_length_le (by simp)
  have hg2 : (List.take 18 [b0, b1, b2, b3, b4, b5, b6, b7, b8, b9,
      b10, b11, b12, b13, b14, b15, b16, b17]).getD 0 0 ≠ 0 := by
    rw [htake]; simpa [List.getD_cons_zero] using hg
  have hv2 : dateTimeValid (decodeBlock (List.take 18 [b0, b1, b2, b3, b4,
      b5, b6, b7, b8, b9, b10, b11, b12, b13, b14, b15, b16, b17])).date_time := by
    rw [htake, decodeBlock_explicit]
    exact hv
  rw [processAux_cons _ (by simp) hg2 hv2, htake, decodeBlock_explicit]
  rw [show List.drop 18 [b0, b1, b2, b3, b4, b5, b6, b7, b8, b9,
      b10, b11, b12, b13, b14, b15, b16, b17] = ([] : List Nat) from by simp]
  rw [processAux_short [] (by simp)]
  rfl

theorem c1_layout_witness :
    processAux [7, 230, 1, 2, 3, 4, 5, 149, 175, 3, 2, 157, 0, 100, 0, 0, 50, 9] =
    .ok [{ date_time := ⟨(7 <<< 8) + 230, 1, 2, 3, 4, 5⟩,
           gender := if 149 &&& 128 = 0 then "F" else "M",
           age := 149 &&& 127,
           height := 175,
           fitness_level := 3,
           weight := (((2 <<< 8) + 157 : ℕ) : ℚ) / 10,
           body_fat := (((0 <<< 8) + 100 : ℕ) : ℚ) / 10,
           muscle_mass := (((0 <<< 8) + 50 : ℕ) : ℚ) / 10,
           visceral_fat := 9 }] :=
  c1_layout 7 230 1 2 3 4 5 149 175 3 2 157 0 100 0 0 50 9
    (by decide) (by decide)

/-- C5 fails on the code as universally stated: on a stream whose single
18-byte block has a non-zero first byte but a day byte of 0, the block does
not yield a record — the whole decode aborts with the date-range exception,
so the loop does not terminate without error over every input stream. -/
theorem c5_loop_counterexample :
    processAux [7, 230, 1, 0, 3, 4, 5, 149, 175, 3, 2, 157, 0, 100, 0, 0, 50, 9] =
      .error (.invalidDate ⟨2022, 1, 0, 3, 4, 5⟩) ∧
    isOkResult
      (processAux [7, 230, 1, 0, 3, 4, 5, 149, 175, 3, 2, 157, 0, 100, 0, 0, 50, 9]) =
      false := by
  have h := processAux_badDate
    [7, 230, 1, 0, 3, 4, 5, 149, 175, 3, 2, 157, 0, 100, 0, 0, 50, 9]
    (by decide) (by decide) (by decide)
  rw [show (decodeBlock (List.take 18
      [7, 230, 1, 0, 3, 4, 5, 149, 175, 3, 2, 157, 0, 100, 0, 0, 50, 9])).date_time =
      (⟨2022, 1, 0, 3, 4, 5⟩ : DateTime) from by decide] at h
  exact ⟨h, by rw [h]; rfl⟩

/-- C5 amended: provided every full 18-byte block with a non-zero first byte
carries an in-range date, the loop reads fixed 18-byte blocks until a short
read (including zero bytes) terminates it without error, each non-zero-guard
block yields exactly one record, zero-guard blocks are silently discarded,
and the records appear in stream order. -/
theorem c5_decode_loop (s : List Nat)
    (h : ∀ c ∈ fullChunks s, c.getD 0 0 ≠ 0 → dateTimeValid (decodeBlock c).date_time) :
    processAux s =
      .ok (((fullChunks s).filter (fun c => c.getD 0 0 != 0)).map decodeBlock) := by
  induction s using fullChunks.induct with
  | case1 s hlt =>
    rw [processAux_short s hlt, fullChunks, dif_pos hlt]
    rfl
  | case2 s hlt ih =>
    have hchunks : fullChunks s = s.take 18 :: fullChunks (s.drop 18) := by
      rw [fullChunks]; exact dif_neg hlt
    have ih2 := ih (fun c hc => h c (by rw [hchunks]; exact List.mem_cons_of_mem _ hc))
    rw [hchunks, List.filter_cons]
    by_cases hg : (s.take 18).getD 0 0 = 0
    · rw [processAux_skip s hlt hg, ih2,
        if_neg (by rw [bne_iff_ne]; exact not_not_intro hg)]
    · have hv := h (s.take 18) (by rw [hchunks]; exact List.mem_cons_self _ _) hg
      rw [processAux_cons s hlt hg hv, ih2, if_pos (by rw [bne_iff_ne]; exact hg)]
      rfl

theorem c5_decode_loop_witness :
    processAux (zeroBlock ++ goodBlock) =
      .ok (((fullChunks (zeroBlock ++ goodBlock)).filter
        (fun c => c.getD 0 0 != 0)).map decodeBlock) := by
  apply c5_decode_loop
  intro c hc
  rw [fullChunks, dif_neg (by decide)] at hc
  rw [fullChunks, dif_neg (by decide)] at hc
  rw [fullChunks, dif_pos (by decide)] at hc
  simp only [List.mem_cons, List.not_mem_nil, or_false] at hc
  rcases hc with rfl | rfl
  · decide
  · decide

/-- C10: decoding is not total over non-zero-guard blocks — on a block whose
month byte is 0 the timestamp construction raises, aborting the decode with
an error that is none of the four documented error kinds instead of skipping
the block. -/
theorem c10_invalid_date :
    processAux [7, 230, 0, 2, 3, 4, 5, 149, 175, 3, 2, 157, 0, 100, 0, 0, 50, 9] =
      .error (.invalidDate ⟨2022, 0, 2, 3, 4, 5⟩) ∧
    isOkResult
      (processAux [7, 230, 0, 2, 3, 4, 5, 149, 175, 3, 2, 157, 0, 100, 0, 0, 50, 9]) =
      false ∧
    isSpecifiedErrorKind (.invalidDate ⟨2022, 0, 2, 3, 4, 5⟩) = false := by
  have h := processAux_badDate
    [7, 230, 0, 2, 3, 4, 5, 149, 175, 3, 2, 157, 0, 100, 0, 0, 50, 9]
    (by decide) (by decide) (by decide)
  rw [show (decodeBlock (List.take 18
      [7, 230, 0, 2, 3, 4, 5, 149, 175, 3, 2, 157, 0, 100, 0, 0, 50, 9])).date_time =
      (⟨2022, 0, 2, 3, 4, 5⟩ : DateTime) from by decide] at h
  exact ⟨h, by rw [h]; rfl, rfl⟩

theorem process_error (ident : String) (s : List Nat) (e : DecodeError)
    (h : processAux s = .error e) : process ident s = .error e := by
  unfold process
  rw [h]

theorem process_empty (ident : String) (s : List Nat)
    (h : processAux s = .ok []) : process ident s = .error (.emptyDataset ident) := by
  unfold process
  rw [h]
  rfl

theorem process_ok (ident : String) (s : List Nat) (rows : List BodyDataRow)
    (h : processAux s = .ok rows) (hne : rows ≠ []) : process ident s = .ok rows := by
  unfold process
  rw [h]
  exact if_neg (fun hl => hne (List.length_eq_zero.mp hl))

theorem process_ne_nil (ident : String) (s : List Nat) (rows : List BodyDataRow)
    (h : process ident s = .ok rows) : rows ≠ [] := by
  cases hE : processAux s with
  | error e =>
    rw [process_error ident s e hE] at h
    exact absurd h (by simp)
  | ok rows2 =>
    by_cases hnil : rows2 = []
    · rw [hnil] at hE
      rw [process_empty ident s hE] at h
      exact absurd h (by simp)
    · rw [process_ok ident s rows2 hE hnil] at h
      injection h with h2
      rw [← h2]
      exact hnil

theorem processAux_zeroBlock : processAux zeroBlock = .ok [] := by
  rw [processAux_skip zeroBlock (by decide) (by decide)]
  exact processAux_short _ (by decide)

theorem processAux_goodBlock : processAux goodBlock = .ok [decodeBlock goodBlock] := by
  rw [processAux_cons goodBlock (by decide) (by decide) (by decide)]
  rw [processAux_short (List.drop 18 goodBlock) (by decide)]
  rw [show List.take 18 goodBlock = goodBlock from by decide]
  rfl

/-- C6: whenever the loop produced zero records, `_process` fails with the
empty-dataset error whose message embeds the original path or stream
identifier; whenever it produced at least one record the populated list is
returned unchanged; an empty list is never returned successfully. -/
theorem c6_empty_dataset : ∀ (s : List Nat) (ident : String),
    (processAux s = .ok [] →
      process ident s = .error (.emptyDataset ident) ∧
      ∃ pre post, (DecodeError.emptyDataset ident).message = pre ++ ident ++ post) ∧
    (∀ rows, processAux s = .ok rows → rows ≠ [] → process ident s = .ok rows) ∧
    (∀ rows, process ident s = .ok rows → rows ≠ []) := by
  intro s ident
  refine ⟨fun h => ⟨process_empty ident s h,
      "File, " ++ pyQuote, pyQuote ++ " has yielded no weigh-ins", rfl⟩,
    fun rows h hne => process_ok ident s rows h hne,
    fun rows h => process_ne_nil ident s rows h⟩

theorem c6_empty_dataset_witness :
    process "tests/EMPTY_FILE.TXT" zeroBlock =
      .error (.emptyDataset "tests/EMPTY_FILE.TXT") ∧
    process "tests/BODYDATA.TXT" goodBlock = .ok [decodeBlock goodBlock] :=
  ⟨((c6_empty_dataset zeroBlock "tests/EMPTY_FILE.TXT").1 processAux_zeroBlock).1,
    (c6_empty_dataset goodBlock "tests/BODYDATA.TXT").2.1
      [decodeBlock goodBlock] processAux_goodBlock (by simp)⟩

/-- C7 fails on the code: `__init__` runs `self._process()` and then an
unconditional `self.file_object.close()` with no `try`/`finally`.  On a
self-opened stream (path input) that decodes to zero records the
empty-dataset error propagates before the close, so the stream is left open;
on a caller-supplied stream that decodes successfully the decoder closes the
caller's stream. -/
theorem c7_close_counterexample :
    (bodyDataInit false "tests/EMPTY_FILE.TXT" zeroBlock).result =
      .error (.emptyDataset "tests/EMPTY_FILE.TXT") ∧
    (bodyDataInit false "tests/EMPTY_FILE.TXT" zeroBlock).streamClosed = false ∧
    (bodyDataInit true "open file object" goodBlock).result =
      .ok [decodeBlock goodBlock] ∧
    (bodyDataInit true "open file object" goodBlock).streamClosed = true := by
  have hz : process "tests/EMPTY_FILE.TXT" zeroBlock =
      .error (.emptyDataset "tests/EMPTY_FILE.TXT") :=
    process_empty _ _ processAux_zeroBlock
  have hg : process "open file object" goodBlock = .ok [decodeBlock goodBlock] :=
    process_ok _ _ _ processAux_goodBlock (by simp)
  refine ⟨?_, ?_, ?_, ?_⟩
  · unfold bodyDataInit; rw [hz]
  · unfold bodyDataInit; rw [hz]
  · unfold bodyDataInit; rw [hg]
  · unfold bodyDataInit; rw [hg]

/-- C7 amended: the decoder closes the stream exactly when decoding
succeeds, regardless of whether the stream was opened by the decoder (path
input) or supplied by the caller; on the empty-dataset failure (and any
other decode error) no close happens and the stream is left open. -/
theorem c7_stream_close : ∀ (suppliedFileObject : Bool) (ident : String) (s : List Nat),
    (bodyDataInit suppliedFileObject ident s).streamClosed =
      isOkResult (process ident s) := by
  intro fo ident s
  unfold bodyDataInit
  cases process ident s <;> rfl

/-- C8: for every 18-byte block of bytes with a non-zero guard byte and an
in-range decoded date, re-encoding the decoded (year, month, day, hour,
minute, second) as year high byte, year low byte, then month, day, hour,
minute, second reproduces the first seven bytes of the block exactly.  Only
the year low byte bound (`b1 < 256`, automatic for Python `bytes`) is needed
to split the year back into its two bytes. -/
theorem c8_roundtrip
    (b0 b1 b2 b3 b4 b5 b6 b7 b8 b9 b10 b11 b12 b13 b14 b15 b16 b17 : Nat)
    (hg : b0 ≠ 0) (hb1 : b1 < 256)
    (hv : dateTimeValid (decodeBlock [b0, b1, b2, b3, b4, b5, b6, b7, b8, b9,
      b10, b11, b12, b13, b14, b15, b16, b17]).date_time) :
    encodeDateTime (decodeBlock [b0, b1, b2, b3, b4, b5, b6, b7, b8, b9,
      b10, b11, b12, b13, b14, b15, b16, b17]).date_time =
    [b0, b1, b2, b3, b4, b5, b6] := by
  rw [decodeBlock_explicit]
  have hsh : b0 <<< 8 = b0 * 256 := by rw [Nat.shiftLeft_eq]
  show encodeDateTime ⟨(b0 <<< 8) + b1, b2, b3, b4, b5, b6⟩ = _
  unfold encodeDateTime
  dsimp only
  rw [hsh]
  simp only [List.cons.injEq, and_true]
  omega

theorem c8_roundtrip_witness :
    encodeDateTime (decodeBlock [7, 230, 1, 2, 3, 4, 5, 149, 175, 3, 2, 157,
      0, 100, 0, 0, 50, 9]).date_time = [7, 230, 1, 2, 3, 4, 5] :=
  c8_roundtrip 7 230 1 2 3 4 5 149 175 3 2 157 0 100 0 0 50 9
    (by decide) (by decide) (by decide)

end MiBody
